import Mathlib

/-!
# Disk resource of the vCloud Director provider

A shallow embedding of `vcd/resource_vcd_disk.go`: the schema returned by
`resourceVcdDisk`, the payload builder `getDiskInput`, and the four lifecycle
entry points `resourceVcdDiskCreate`, `resourceVcdDiskRead`,
`resourceVcdDiskUpdate` and `resourceVcdDiskDelete`.

The Go functions mutate a `*schema.ResourceData` and talk to the remote system
through the SDK.  Here the resource data is an explicit value that each entry
point returns updated, the remote system is an explicit state of an arbitrary
type `σ` threaded through every SDK call, and each entry point also returns the
list of SDK calls it issued, in order.  Logging (`log.Printf`) has no effect on
any of these and is left out.
-/

namespace Vcd

/-! ## Errors -/

/-- An error value handed back by the SDK, described by the two renderings the
resource code can observe: the text of `Error()` (the `%s` verb) and the
Go-syntax rendering (the `%#v` verb). -/
structure SdkError where
  text : String
  goSyntax : String
deriving DecidableEq, Repr

/-- The error value an entry point returns (`nil` is `none : Option GoError`). -/
inductive GoError where
  -- an error value returned to the caller as it was received
  | passed (e : SdkError)
  -- a fresh `*errors.errorString` with the given text, as built by `fmt.Errorf`
  | errorString (s : String)
deriving DecidableEq, Repr

/-- The text `Error()` yields. -/
def GoError.Error : GoError → String
  | .passed e => e.text
  | .errorString s => s

/-- Models `fmt.Errorf(lead ++ "%s", err)`. -/
def Errorf_s (lead : String) (err : SdkError) : GoError :=
  .errorString (lead ++ err.text)

/-- Models `fmt.Errorf(lead ++ "%#v", err)`. -/
def Errorf_v (lead : String) (err : SdkError) : GoError :=
  .errorString (lead ++ err.goSyntax)

/-! ## Resource data -/

/-- The part of `schema.ResourceData` the disk resource touches: the resource
ID and the six attributes of the schema.  An attribute that was never set is
`none`. -/
structure ResourceData where
  id : String
  org : Option String
  vdc : Option String
  name : Option String
  description : Option String
  size : Option Int
  href : Option String
deriving DecidableEq, Repr

/-- Models `d.Get("name").(string)`: the zero value when the key is unset. -/
def ResourceData.Get_name (d : ResourceData) : String := d.name.getD ""

/-- Models `d.Get("size").(int)`: the zero value when the key is unset. -/
def ResourceData.Get_size (d : ResourceData) : Int := d.size.getD 0

/-- Models `d.Get("href").(string)`: the zero value when the key is unset. -/
def ResourceData.Get_href (d : ResourceData) : String := d.href.getD ""

/-- Models `d.GetOk("description")`: the value, and whether the key has been
set to a non-zero value (the documented meaning of the second result of
`ResourceData.GetOk`). -/
def ResourceData.GetOk_description (d : ResourceData) : String × Bool :=
  match d.description with
  | some v => (v, v != "")
  | none => ("", false)

/-- Models `d.Set("href", v)`. -/
def ResourceData.Set_href (d : ResourceData) (v : String) : ResourceData :=
  { d with href := some v }

/-- Models `d.SetId(v)`. -/
def ResourceData.SetId (d : ResourceData) (v : String) : ResourceData :=
  { d with id := v }

/-! ## Schema -/

/-- The value types of `schema.ValueType` the disk schema uses. -/
inductive ValueType where
  | TypeString
  | TypeInt
deriving DecidableEq, Repr

/-- The fields of `schema.Schema` the disk schema sets; a field left out of a
Go composite literal has its zero value. -/
structure Schema where
  Type_ : ValueType
  Required : Bool := false
  Optional : Bool := false
  Computed : Bool := false
  ForceNew : Bool := false
  Description : String := ""
deriving DecidableEq, Repr

/-- The `Schema` map of the resource returned by `resourceVcdDisk`, in source
order. -/
def resourceVcdDisk : List (String × Schema) :=
  [ ("org", { Type_ := .TypeString, Required := true, ForceNew := true,
              Description := "Organization to create the disk in" }),
    ("vdc", { Type_ := .TypeString, Required := true, ForceNew := true,
              Description := "VDC to create the disk in" }),
    ("name", { Type_ := .TypeString, Required := true, ForceNew := false }),
    ("description", { Type_ := .TypeString, Optional := true, ForceNew := false }),
    ("size", { Type_ := .TypeInt, Required := true, ForceNew := false }),
    ("href", { Type_ := .TypeString, Optional := true, Computed := true }) ]

/-- The schema declared for an attribute, if any. -/
def schemaOf (key : String) : Option Schema :=
  (resourceVcdDisk.find? (fun kv => kv.1 == key)).map (fun kv => kv.2)

/-- Whether a change to the attribute forces replacement of the resource. -/
def forcesNew (key : String) : Bool :=
  match schemaOf key with
  | some s => s.ForceNew
  | none => false

/-! ## Payload -/

/-- The fields of `types.Disk` that `getDiskInput` fills.  `Description` is a
Go `string`, so a field that was never assigned holds `""`. -/
structure Disk where
  Name : String
  Size : Int
  Description : String := ""
deriving DecidableEq, Repr

/-- Models `types.DiskCreateParams`. -/
structure DiskCreateParams where
  Disk : Disk
deriving DecidableEq, Repr

/-- Whether the encoded payload carries a `Description` element: the field is
declared with the `omitempty` option, so the encoder writes it exactly when the
string is not empty. -/
def DiskCreateParams.hasDescription (p : DiskCreateParams) : Bool :=
  p.Disk.Description != ""

/-- Models `getDiskInput`.  The client argument is not used by the Go body and
is not a parameter here. -/
def getDiskInput (d : ResourceData) : Except GoError DiskCreateParams :=
  let params : DiskCreateParams := { Disk := { Name := d.Get_name, Size := d.Get_size } }
  match d.GetOk_description with
  | (description, true) => .ok { params with Disk := { params.Disk with Description := description } }
  | (_, false) => .ok params

/-! ## The SDK and the remote system -/

/-- A handle on a virtual datacenter, as returned by
`GetOrgAndVdcFromResource`. -/
structure Vdc where
  name : String
deriving DecidableEq, Repr

/-- A handle on a remote disk (`govcd.Disk`), identified by its locator. -/
structure RemoteDisk where
  href : String
deriving DecidableEq, Repr

/-- A handle on a remote task; `ownerHREF` is `task.Task.Owner.HREF`. -/
structure Task where
  ownerHREF : String
deriving DecidableEq, Repr

/-- Why a lookup failed.  The Go signature of `FindDiskByHREF` returns a plain
`error`; the kind is a fact about the remote system that the model records so
that properties can speak about it. -/
inductive FailureKind where
  | notFound
  | transport
deriving DecidableEq, Repr

/-- A failed lookup: its kind and the error value the SDK returned. -/
structure LookupFailure where
  kind : FailureKind
  err : SdkError
deriving DecidableEq, Repr

/-- The calls the disk resource makes, over a remote system with states `σ`.
Every call returns its result together with the remote state after the call.
`GetOrgAndVdcFromResource` is a method of the provider's client that lives
outside this source file and is taken as given, like the SDK calls. -/
structure SDK (σ : Type) where
  GetOrgAndVdcFromResource : σ → ResourceData → Except SdkError Vdc × σ
  CreateDisk : σ → Vdc → DiskCreateParams → Except SdkError Task × σ
  WaitTaskCompletion : σ → Task → Option SdkError × σ
  FindDiskByHREF : σ → String → Except LookupFailure RemoteDisk × σ
  Delete : σ → RemoteDisk → Except SdkError Task × σ

/-- A call issued to the remote system, with its arguments. -/
inductive Call where
  | getOrgAndVdc
  | createDisk (vdc : Vdc) (params : DiskCreateParams)
  | waitTask (task : Task)
  | findDiskByHREF (href : String)
  | deleteDisk (disk : RemoteDisk)
deriving DecidableEq, Repr

/-- What an entry point leaves behind: the returned error (`none` is `nil`),
the resource data, the remote state, and the calls issued, in order. -/
structure Outcome (σ : Type) where
  err : Option GoError
  d : ResourceData
  remote : σ
  calls : List Call

/-! ## Lifecycle entry points -/

/-- Models `resourceVcdDiskCreate`. -/
def resourceVcdDiskCreate {σ : Type} (sdk : SDK σ) (d : ResourceData) (w : σ) : Outcome σ :=
  match sdk.GetOrgAndVdcFromResource w d with
  | (.error err, w1) =>
    ⟨some (Errorf_s "error retrieving Org and VDC: " err), d, w1, [.getOrgAndVdc]⟩
  | (.ok vdc, w1) =>
    match getDiskInput d with
    | .error err => ⟨some err, d, w1, [.getOrgAndVdc]⟩
    | .ok params =>
      match sdk.CreateDisk w1 vdc params with
      | (.error err, w2) =>
        ⟨some (Errorf_v "error creating disk: " err), d, w2,
          [.getOrgAndVdc, .createDisk vdc params]⟩
      | (.ok task, w2) =>
        let d1 := d.Set_href task.ownerHREF
        match sdk.WaitTaskCompletion w2 task with
        | (some err, w3) =>
          ⟨some (Errorf_v "error waiting for disk to finish: " err), d1, w3,
            [.getOrgAndVdc, .createDisk vdc params, .waitTask task]⟩
        | (none, w3) =>
          ⟨none, d1.SetId d1.Get_name, w3,
            [.getOrgAndVdc, .createDisk vdc params, .waitTask task]⟩

/-- Models `resourceVcdDiskRead`. -/
def resourceVcdDiskRead {σ : Type} (sdk : SDK σ) (d : ResourceData) (w : σ) : Outcome σ :=
  match sdk.FindDiskByHREF w d.Get_href with
  | (.error _, w1) => ⟨none, d.SetId "", w1, [.findDiskByHREF d.Get_href]⟩
  | (.ok _, w1) => ⟨none, d, w1, [.findDiskByHREF d.Get_href]⟩

/-- Models `resourceVcdDiskUpdate`. -/
def resourceVcdDiskUpdate {σ : Type} (_sdk : SDK σ) (d : ResourceData) (w : σ) : Outcome σ :=
  ⟨none, d, w, []⟩

/-- Models `resourceVcdDiskDelete`. -/
def resourceVcdDiskDelete {σ : Type} (sdk : SDK σ) (d : ResourceData) (w : σ) : Outcome σ :=
  match sdk.FindDiskByHREF w d.Get_href with
  | (.error _, w1) => ⟨none, d.SetId "", w1, [.findDiskByHREF d.Get_href]⟩
  | (.ok disk, w1) =>
    match sdk.Delete w1 disk with
    | (.error err, w2) =>
      ⟨some (Errorf_v "error removing disk " err), d, w2,
        [.findDiskByHREF d.Get_href, .deleteDisk disk]⟩
    | (.ok task, w2) =>
      match sdk.WaitTaskCompletion w2 task with
      | (some err, w3) =>
        ⟨some (Errorf_v "error removing disk " err), d, w3,
          [.findDiskByHREF d.Get_href, .deleteDisk disk, .waitTask task]⟩
      | (none, w3) =>
        ⟨none, d, w3, [.findDiskByHREF d.Get_href, .deleteDisk disk, .waitTask task]⟩

/-! ## A scripted remote system

A small remote system for concrete runs: its state is the list of locators of
the live disks, and the outcome of each mutating call is fixed in advance. -/

/-- The failure of a lookup whose object does not exist. -/
def gone : LookupFailure :=
  { kind := .notFound, err := { text := "disk not found", goSyntax := "disk not found" } }

/-- An SDK over a remote state that lists the locators of the live disks.
While the remote system is reachable (`outage` is `none`) a lookup finds
exactly the listed locators and fails with `gone` otherwise; during an outage
every lookup fails with a transport failure carrying the given error.  An
accepted creation adds the task owner's locator; an accepted deletion removes
the disk's locator. -/
def scripted (orgVdc : Except SdkError Vdc) (create : Except SdkError Task)
    (wait : Option SdkError) (del : Except SdkError Task) (outage : Option SdkError) :
    SDK (List String) where
  GetOrgAndVdcFromResource w _ := (orgVdc, w)
  CreateDisk w _ _ :=
    match create with
    | .ok task => (.ok task, task.ownerHREF :: w)
    | .error e => (.error e, w)
  WaitTaskCompletion w _ := (wait, w)
  FindDiskByHREF w href :=
    match outage with
    | some e => (.error ⟨.transport, e⟩, w)
    | none => if href ∈ w then (.ok ⟨href⟩, w) else (.error gone, w)
  Delete w disk :=
    match del with
    | .ok task => (.ok task, w.filter (fun h => h != disk.href))
    | .error e => (.error e, w)

/-- The declared disk of the end-to-end scenario: name `disk1`, size 2048, no
description, not yet created. -/
def disk1 : ResourceData :=
  { id := "", org := some "org1", vdc := some "vdc1", name := some "disk1",
    description := none, size := some 2048, href := none }

/-- The same disk after a successful creation. -/
def disk1Created : ResourceData :=
  { disk1 with id := "disk1", href := some "https://host/disk/abc123" }

/-- The task the remote system hands back for the creation of `disk1`. -/
def task1 : Task := { ownerHREF := "https://host/disk/abc123" }

/-- An error value as `errors.New("boom")` builds it. -/
def boom : SdkError := { text := "boom", goSyntax := "&errors.errorString\x7bs:\"boom\"\x7d" }

/-- The error of a connection that could not be established. -/
def refused : SdkError :=
  { text := "dial tcp: connection refused", goSyntax := "dial tcp: connection refused" }

/-! ## Read -/

/-- C3: when the lookup by the stored locator reports that the object no longer
exists, Read sets the ID to the empty string and returns nil, leaving every
attribute as it was; when the lookup succeeds, Read returns nil and leaves the
ID and every attribute unchanged.  In both cases the only call issued is the
lookup by the stored "href". -/
theorem read_not_found_clears_id_found_keeps_state {σ : Type} (sdk : SDK σ)
    (d : ResourceData) (w : σ) :
    (∀ e w1, sdk.FindDiskByHREF w d.Get_href = (.error ⟨.notFound, e⟩, w1) →
      (resourceVcdDiskRead sdk d w).err = none ∧
      (resourceVcdDiskRead sdk d w).d.id = "" ∧
      (resourceVcdDiskRead sdk d w).d = { d with id := "" } ∧
      (resourceVcdDiskRead sdk d w).calls = [.findDiskByHREF d.Get_href]) ∧
    (∀ disk w1, sdk.FindDiskByHREF w d.Get_href = (.ok disk, w1) →
      (resourceVcdDiskRead sdk d w).err = none ∧
      (resourceVcdDiskRead sdk d w).d = d ∧
      (resourceVcdDiskRead sdk d w).calls = [.findDiskByHREF d.Get_href]) := by
  constructor
  · intro e w1 h
    simp [resourceVcdDiskRead, h, ResourceData.SetId]
  · intro disk w1 h
    simp [resourceVcdDiskRead, h]

/-- C2 (as stated, refuted): the created `disk1` is live in the remote system
and carries a non-empty ID, the lookup fails with a transport failure; Read
returns nil and empties the ID. -/
theorem read_transport_failure_swallowed :
    (scripted (.ok ⟨"vdc1"⟩) (.ok task1) none (.ok task1) (some refused)).FindDiskByHREF
        ["https://host/disk/abc123"] disk1Created.Get_href =
      (.error ⟨.transport, refused⟩, ["https://host/disk/abc123"]) ∧
    disk1Created.id = "disk1" ∧
    (resourceVcdDiskRead (scripted (.ok ⟨"vdc1"⟩) (.ok task1) none (.ok task1) (some refused))
        disk1Created ["https://host/disk/abc123"]).err = none ∧
    (resourceVcdDiskRead (scripted (.ok ⟨"vdc1"⟩) (.ok task1) none (.ok task1) (some refused))
        disk1Created ["https://host/disk/abc123"]).d.id = "" := by
  refine ⟨rfl, rfl, rfl, rfl⟩

/-- C2 (amended): whatever the kind of the failure, transport failure included,
when the lookup by the stored locator fails Read returns nil, sets the ID to
the empty string and leaves every attribute unchanged. -/
theorem read_any_lookup_failure_clears_id {σ : Type} (sdk : SDK σ) (d : ResourceData) (w : σ)
    (f : LookupFailure) (w1 : σ) (h : sdk.FindDiskByHREF w d.Get_href = (.error f, w1)) :
    (resourceVcdDiskRead sdk d w).err = none ∧
    (resourceVcdDiskRead sdk d w).d = { d with id := "" } := by
  simp [resourceVcdDiskRead, h, ResourceData.SetId]

/-- Witness for C2 (amended): a transport failure on the created `disk1`. -/
theorem read_any_lookup_failure_clears_id_witness :
    (resourceVcdDiskRead (scripted (.ok ⟨"vdc1"⟩) (.ok task1) none (.ok task1) (some refused))
        disk1Created ["https://host/disk/abc123"]).err = none ∧
    (resourceVcdDiskRead (scripted (.ok ⟨"vdc1"⟩) (.ok task1) none (.ok task1) (some refused))
        disk1Created ["https://host/disk/abc123"]).d = { disk1Created with id := "" } :=
  read_any_lookup_failure_clears_id _ disk1Created ["https://host/disk/abc123"]
    ⟨.transport, refused⟩ ["https://host/disk/abc123"] rfl

/-- Witness for C3: a created disk whose object is gone, and the same disk
while its object is live. -/
theorem read_not_found_clears_id_found_keeps_state_witness :
    ((resourceVcdDiskRead (scripted (.ok ⟨"vdc1"⟩) (.ok task1) none (.ok task1) none)
        disk1Created []).err = none ∧
      (resourceVcdDiskRead (scripted (.ok ⟨"vdc1"⟩) (.ok task1) none (.ok task1) none)
        disk1Created []).d.id = "") ∧
    ((resourceVcdDiskRead (scripted (.ok ⟨"vdc1"⟩) (.ok task1) none (.ok task1) none)
        disk1Created ["https://host/disk/abc123"]).err = none ∧
      (resourceVcdDiskRead (scripted (.ok ⟨"vdc1"⟩) (.ok task1) none (.ok task1) none)
        disk1Created ["https://host/disk/abc123"]).d = disk1Created) :=
  ⟨⟨((read_not_found_clears_id_found_keeps_state
        (scripted (.ok ⟨"vdc1"⟩) (.ok task1) none (.ok task1) none) disk1Created []).1
        gone.err [] rfl).1,
     ((read_not_found_clears_id_found_keeps_state
        (scripted (.ok ⟨"vdc1"⟩) (.ok task1) none (.ok task1) none) disk1Created []).1
        gone.err [] rfl).2.1⟩,
   ⟨((read_not_found_clears_id_found_keeps_state
        (scripted (.ok ⟨"vdc1"⟩) (.ok task1) none (.ok task1) none) disk1Created
        ["https://host/disk/abc123"]).2 ⟨"https://host/disk/abc123"⟩
        ["https://host/disk/abc123"] rfl).1,
     ((read_not_found_clears_id_found_keeps_state
        (scripted (.ok ⟨"vdc1"⟩) (.ok task1) none (.ok task1) none) disk1Created
        ["https://host/disk/abc123"]).2 ⟨"https://host/disk/abc123"⟩
        ["https://host/disk/abc123"] rfl).2.1⟩⟩

/-! ## Update -/

/-- C9: Update returns nil, issues no remote call, and leaves the resource data
(the ID and every attribute) and the remote state unchanged. -/
theorem update_is_noop {σ : Type} (sdk : SDK σ) (d : ResourceData) (w : σ) :
    (resourceVcdDiskUpdate sdk d w).err = none ∧
    (resourceVcdDiskUpdate sdk d w).calls = [] ∧
    (resourceVcdDiskUpdate sdk d w).d = d ∧
    (resourceVcdDiskUpdate sdk d w).remote = w :=
  ⟨rfl, rfl, rfl, rfl⟩

/-! ## Create -/

/-- C1 (as stated, refuted): the creation of `disk1` is accepted and its task
then fails; Create returns an error and the ID is still unset, but the "href"
attribute, unset before the call, now holds the task owner's locator, so the
local state is not what it was before the call. -/
theorem create_task_failure_sets_href :
    (scripted (.ok ⟨"vdc1"⟩) (.ok task1) (some boom) (.ok task1) none).WaitTaskCompletion
        ["https://host/disk/abc123"] task1 = (some boom, ["https://host/disk/abc123"]) ∧
    (resourceVcdDiskCreate (scripted (.ok ⟨"vdc1"⟩) (.ok task1) (some boom) (.ok task1) none)
        disk1 []).err =
      some (.errorString
        "error waiting for disk to finish: &errors.errorString\x7bs:\"boom\"\x7d") ∧
    (resourceVcdDiskCreate (scripted (.ok ⟨"vdc1"⟩) (.ok task1) (some boom) (.ok task1) none)
        disk1 []).d.id = "" ∧
    disk1.href = none ∧
    (resourceVcdDiskCreate (scripted (.ok ⟨"vdc1"⟩) (.ok task1) (some boom) (.ok task1) none)
        disk1 []).d.href = some "https://host/disk/abc123" ∧
    (resourceVcdDiskCreate (scripted (.ok ⟨"vdc1"⟩) (.ok task1) (some boom) (.ok task1) none)
        disk1 []).d ≠ disk1 := by
  decide

/-- C1 (amended): once the org and VDC are retrieved and the payload is built,
if `CreateDisk` fails then Create returns an error and the resource data is
exactly what it was before the call; if `CreateDisk` is accepted and
`WaitTaskCompletion` fails then Create returns an error, the ID is what it was
before the call (still unset), and the attributes org, vdc, name, description
and size are unchanged. -/
theorem create_failure_keeps_identity {σ : Type} (sdk : SDK σ) (d : ResourceData) (w w1 : σ)
    (vdc : Vdc) (params : DiskCreateParams)
    (hvdc : sdk.GetOrgAndVdcFromResource w d = (.ok vdc, w1))
    (hp : getDiskInput d = .ok params) :
    (∀ e w2, sdk.CreateDisk w1 vdc params = (.error e, w2) →
      (resourceVcdDiskCreate sdk d w).err ≠ none ∧
      (resourceVcdDiskCreate sdk d w).d = d) ∧
    (∀ task w2 e w3, sdk.CreateDisk w1 vdc params = (.ok task, w2) →
      sdk.WaitTaskCompletion w2 task = (some e, w3) →
      (resourceVcdDiskCreate sdk d w).err ≠ none ∧
      (resourceVcdDiskCreate sdk d w).d.id = d.id ∧
      (resourceVcdDiskCreate sdk d w).d.org = d.org ∧
      (resourceVcdDiskCreate sdk d w).d.vdc = d.vdc ∧
      (resourceVcdDiskCreate sdk d w).d.name = d.name ∧
      (resourceVcdDiskCreate sdk d w).d.description = d.description ∧
      (resourceVcdDiskCreate sdk d w).d.size = d.size) := by
  constructor
  · intro e w2 h
    simp [resourceVcdDiskCreate, hvdc, hp, h]
  · intro task w2 e w3 h hwait
    simp [resourceVcdDiskCreate, hvdc, hp, h, hwait, ResourceData.Set_href]

/-- Witness for C1 (amended): `disk1` with a rejected creation, and `disk1`
with an accepted creation whose task fails. -/
theorem create_failure_keeps_identity_witness :
    (resourceVcdDiskCreate (scripted (.ok ⟨"vdc1"⟩) (.error boom) none (.ok task1) none)
        disk1 []).d = disk1 ∧
    (resourceVcdDiskCreate (scripted (.ok ⟨"vdc1"⟩) (.ok task1) (some boom) (.ok task1) none)
        disk1 []).d.id = disk1.id :=
  ⟨((create_failure_keeps_identity
        (scripted (.ok ⟨"vdc1"⟩) (.error boom) none (.ok task1) none) disk1 [] []
        ⟨"vdc1"⟩ ⟨⟨"disk1", 2048, ""⟩⟩ rfl rfl).1 boom [] rfl).2,
   ((create_failure_keeps_identity
        (scripted (.ok ⟨"vdc1"⟩) (.ok task1) (some boom) (.ok task1) none) disk1 [] []
        ⟨"vdc1"⟩ ⟨⟨"disk1", 2048, ""⟩⟩ rfl rfl).2 task1 ["https://host/disk/abc123"] boom
        ["https://host/disk/abc123"] rfl rfl).2.1⟩

/-- C6: for a declared disk with name `n`, size `s` and no description, when
the org and VDC lookup, `CreateDisk` and the task wait all succeed and the
task's owner locator is `L`, Create submits exactly the payload with name `n`,
size `s` and no description, returns nil, and leaves the ID equal to `n` and
"href" equal to `L`, the other attributes being unchanged. -/
theorem create_success_sets_id_and_href {σ : Type} (sdk : SDK σ) (d : ResourceData)
    (w w1 w2 w3 : σ) (vdc : Vdc) (task : Task) (n L : String) (s : Int)
    (hname : d.name = some n) (hsize : d.size = some s) (hdesc : d.description = none)
    (hvdc : sdk.GetOrgAndVdcFromResource w d = (.ok vdc, w1))
    (hcreate : sdk.CreateDisk w1 vdc ⟨⟨n, s, ""⟩⟩ = (.ok task, w2))
    (howner : task.ownerHREF = L)
    (hwait : sdk.WaitTaskCompletion w2 task = (none, w3)) :
    getDiskInput d = .ok ⟨⟨n, s, ""⟩⟩ ∧
    DiskCreateParams.hasDescription ⟨⟨n, s, ""⟩⟩ = false ∧
    (resourceVcdDiskCreate sdk d w).calls =
      [.getOrgAndVdc, .createDisk vdc ⟨⟨n, s, ""⟩⟩, .waitTask task] ∧
    (resourceVcdDiskCreate sdk d w).err = none ∧
    (resourceVcdDiskCreate sdk d w).d.id = n ∧
    (resourceVcdDiskCreate sdk d w).d.href = some L ∧
    (resourceVcdDiskCreate sdk d w).d = { d with id := n, href := some L } := by
  have hp : getDiskInput d = .ok ⟨⟨n, s, ""⟩⟩ := by
    simp [getDiskInput, ResourceData.GetOk_description, hdesc, ResourceData.Get_name,
      ResourceData.Get_size, hname, hsize]
  subst howner
  refine ⟨hp, by simp [DiskCreateParams.hasDescription], ?_, ?_, ?_, ?_, ?_⟩ <;>
    simp [resourceVcdDiskCreate, hvdc, hp, hcreate, hwait, ResourceData.Set_href,
      ResourceData.SetId, ResourceData.Get_name, hname]

/-- Witness for C6: the end-to-end scenario with name `disk1`, size 2048 and
locator `https://host/disk/abc123`. -/
theorem create_success_sets_id_and_href_witness :
    (resourceVcdDiskCreate (scripted (.ok ⟨"vdc1"⟩) (.ok task1) none (.ok task1) none)
        disk1 []).calls =
      [.getOrgAndVdc, .createDisk ⟨"vdc1"⟩ ⟨⟨"disk1", 2048, ""⟩⟩, .waitTask task1] ∧
    (resourceVcdDiskCreate (scripted (.ok ⟨"vdc1"⟩) (.ok task1) none (.ok task1) none)
        disk1 []).err = none ∧
    (resourceVcdDiskCreate (scripted (.ok ⟨"vdc1"⟩) (.ok task1) none (.ok task1) none)
        disk1 []).d.id = "disk1" ∧
    (resourceVcdDiskCreate (scripted (.ok ⟨"vdc1"⟩) (.ok task1) none (.ok task1) none)
        disk1 []).d.href = some "https://host/disk/abc123" :=
  let h := create_success_sets_id_and_href
    (scripted (.ok ⟨"vdc1"⟩) (.ok task1) none (.ok task1) none) disk1
    [] [] ["https://host/disk/abc123"] ["https://host/disk/abc123"] ⟨"vdc1"⟩ task1
    "disk1" "https://host/disk/abc123" 2048 rfl rfl rfl rfl rfl rfl rfl
  ⟨h.2.2.1, h.2.2.2.1, h.2.2.2.2.1, h.2.2.2.2.2.1⟩

/-! ## Delete -/

/-- C4: on a disk that exists, when the deletion is accepted and its task
completes, and the remote system no longer finds the deleted disk by its
locator, two calls of Delete in a row both return nil; the second call issues
the lookup only (no `Delete` call and no task wait), clears the ID and leaves
the remote state as the lookup left it. -/
theorem delete_twice_is_idempotent {σ : Type} (sdk : SDK σ) (d : ResourceData)
    (w w1 w2 w3 w4 : σ) (disk : RemoteDisk) (task : Task) (e : SdkError)
    (hfind : sdk.FindDiskByHREF w d.Get_href = (.ok disk, w1))
    (hdel : sdk.Delete w1 disk = (.ok task, w2))
    (hwait : sdk.WaitTaskCompletion w2 task = (none, w3))
    (hgone : sdk.FindDiskByHREF w3 d.Get_href = (.error ⟨.notFound, e⟩, w4)) :
    (resourceVcdDiskDelete sdk d w).err = none ∧
    (resourceVcdDiskDelete sdk d w).calls =
      [.findDiskByHREF d.Get_href, .deleteDisk disk, .waitTask task] ∧
    (resourceVcdDiskDelete sdk (resourceVcdDiskDelete sdk d w).d
      (resourceVcdDiskDelete sdk d w).remote).err = none ∧
    (resourceVcdDiskDelete sdk (resourceVcdDiskDelete sdk d w).d
      (resourceVcdDiskDelete sdk d w).remote).calls = [.findDiskByHREF d.Get_href] ∧
    (resourceVcdDiskDelete sdk (resourceVcdDiskDelete sdk d w).d
      (resourceVcdDiskDelete sdk d w).remote).d.id = "" ∧
    (resourceVcdDiskDelete sdk (resourceVcdDiskDelete sdk d w).d
      (resourceVcdDiskDelete sdk d w).remote).remote = w4 := by
  have h1 : resourceVcdDiskDelete sdk d w =
      ⟨none, d, w3, [.findDiskByHREF d.Get_href, .deleteDisk disk, .waitTask task]⟩ := by
    simp [resourceVcdDiskDelete, hfind, hdel, hwait]
  have h2 : resourceVcdDiskDelete sdk d w3 =
      ⟨none, d.SetId "", w4, [.findDiskByHREF d.Get_href]⟩ := by
    simp [resourceVcdDiskDelete, hgone]
  rw [h1]
  simp only [h2]
  simp [ResourceData.SetId]

/-- Witness for C4: the created `disk1` over a remote system that holds it. -/
theorem delete_twice_is_idempotent_witness :
    (resourceVcdDiskDelete (scripted (.ok ⟨"vdc1"⟩) (.ok task1) none (.ok task1) none)
      disk1Created ["https://host/disk/abc123"]).err = none ∧
    (resourceVcdDiskDelete (scripted (.ok ⟨"vdc1"⟩) (.ok task1) none (.ok task1) none)
      (resourceVcdDiskDelete (scripted (.ok ⟨"vdc1"⟩) (.ok task1) none (.ok task1) none)
        disk1Created ["https://host/disk/abc123"]).d
      (resourceVcdDiskDelete (scripted (.ok ⟨"vdc1"⟩) (.ok task1) none (.ok task1) none)
        disk1Created ["https://host/disk/abc123"]).remote).calls =
      [.findDiskByHREF "https://host/disk/abc123"] :=
  let h := delete_twice_is_idempotent
    (scripted (.ok ⟨"vdc1"⟩) (.ok task1) none (.ok task1) none) disk1Created
    ["https://host/disk/abc123"] ["https://host/disk/abc123"] [] [] []
    ⟨"https://host/disk/abc123"⟩ task1 gone.err rfl rfl rfl rfl
  ⟨h.1, h.2.2.2.1⟩

/-- C5 (the code at the failing input): the created `disk1` exists remotely,
its deletion is accepted and the task completes; Delete returns nil and the
remote disk is gone, but the ID it leaves behind is still `disk1`, not empty,
whereas the branch of the same function for a disk that is not found leaves
the ID empty. -/
theorem delete_success_keeps_id :
    (resourceVcdDiskDelete (scripted (.ok ⟨"vdc1"⟩) (.ok task1) none (.ok task1) none)
      disk1Created ["https://host/disk/abc123"]).err = none ∧
    (resourceVcdDiskDelete (scripted (.ok ⟨"vdc1"⟩) (.ok task1) none (.ok task1) none)
      disk1Created ["https://host/disk/abc123"]).remote = [] ∧
    (resourceVcdDiskDelete (scripted (.ok ⟨"vdc1"⟩) (.ok task1) none (.ok task1) none)
      disk1Created ["https://host/disk/abc123"]).d.id = "disk1" ∧
    (resourceVcdDiskDelete (scripted (.ok ⟨"vdc1"⟩) (.ok task1) none (.ok task1) none)
      disk1Created ["https://host/disk/abc123"]).d.id ≠ "" ∧
    (resourceVcdDiskDelete (scripted (.ok ⟨"vdc1"⟩) (.ok task1) none (.ok task1) none)
      disk1Created []).d.id = "" := by
  decide

/-! ## Payload -/

/-- C7 (as stated, refuted): the caller sets "description" explicitly, to the
empty string; the payload carries no description, and is the payload built
when "description" is unset. -/
theorem getDiskInput_explicit_empty_description_omitted :
    ({ disk1 with description := some "" } : ResourceData).description.isSome = true ∧
    getDiskInput { disk1 with description := some "" } = .ok ⟨⟨"disk1", 2048, ""⟩⟩ ∧
    DiskCreateParams.hasDescription ⟨⟨"disk1", 2048, ""⟩⟩ = false ∧
    getDiskInput { disk1 with description := some "" } = getDiskInput disk1 := by
  refine ⟨rfl, rfl, rfl, rfl⟩

/-- C7 (amended): `getDiskInput` never returns an error; the payload it
returns has the declared name and size; the payload carries a description if
and only if the caller set "description" to a non-empty value, and then it is
the caller's value; when "description" is unset the payload carries no
description; and the result depends only on the name, size and description. -/
theorem getDiskInput_description_law (d : ResourceData) :
    (∃ p, getDiskInput d = .ok p ∧
      p.Disk.Name = d.Get_name ∧ p.Disk.Size = d.Get_size ∧
      (p.hasDescription = true ↔ ∃ v, d.description = some v ∧ v ≠ "") ∧
      (∀ v, d.description = some v → p.Disk.Description = v) ∧
      (d.description = none → p.hasDescription = false)) ∧
    (∀ d2 : ResourceData, d2.name = d.name → d2.size = d.size →
      d2.description = d.description → getDiskInput d2 = getDiskInput d) := by
  constructor
  · cases hdesc : d.description with
    | none =>
      refine ⟨⟨⟨d.Get_name, d.Get_size, ""⟩⟩, ?_, rfl, rfl, ?_, ?_, ?_⟩
      · simp [getDiskInput, ResourceData.GetOk_description, hdesc]
      · simp [DiskCreateParams.hasDescription]
      · intro v hv
        cases hv
      · intro _
        simp [DiskCreateParams.hasDescription]
    | some v =>
      by_cases hv : v = ""
      · subst hv
        refine ⟨⟨⟨d.Get_name, d.Get_size, ""⟩⟩, ?_, rfl, rfl, ?_, ?_, ?_⟩
        · simp [getDiskInput, ResourceData.GetOk_description, hdesc]
        · simp [DiskCreateParams.hasDescription]
        · intro v hv
          cases hv
          rfl
        · intro h
          cases h
      · refine ⟨⟨⟨d.Get_name, d.Get_size, v⟩⟩, ?_, rfl, rfl, ?_, ?_, ?_⟩
        · have hb : (v != "") = true := by simpa [bne_iff_ne] using hv
          simp [getDiskInput, ResourceData.GetOk_description, hdesc, hb]
        · simp [DiskCreateParams.hasDescription, hv]
        · intro v2 hv2
          cases hv2
          rfl
        · intro h
          cases h
  · intro d2 hn hs hd
    simp [getDiskInput, ResourceData.GetOk_description, ResourceData.Get_name,
      ResourceData.Get_size, hn, hs, hd]

/-! ## Error propagation -/

/-- A text that starts with the lead of a rejected creation differs from any
text that starts with the lead of a failed creation task. -/
theorem create_leads_differ (x y : String) :
    "error creating disk: " ++ x ≠ "error waiting for disk to finish: " ++ y := by
  intro h
  have h2 := congrArg (fun s => s.data.take 7) h
  simp [String.data_append] at h2

/-- C8 (as stated, refuted): `CreateDisk` fails with the error `boom`; the
error Create returns is not `boom` itself but a new error value whose text is
not the text of `boom`.  And when Delete fails with `boom`, the error it
returns is the same whether the deletion was rejected or its task failed. -/
theorem create_error_is_rewrapped :
    (scripted (.ok ⟨"vdc1"⟩) (.error boom) none (.ok task1) none).CreateDisk []
        ⟨"vdc1"⟩ ⟨⟨"disk1", 2048, ""⟩⟩ = (.error boom, []) ∧
    (resourceVcdDiskCreate (scripted (.ok ⟨"vdc1"⟩) (.error boom) none (.ok task1) none)
        disk1 []).err =
      some (.errorString "error creating disk: &errors.errorString\x7bs:\"boom\"\x7d") ∧
    (resourceVcdDiskCreate (scripted (.ok ⟨"vdc1"⟩) (.error boom) none (.ok task1) none)
        disk1 []).err ≠ some (.passed boom) ∧
    (resourceVcdDiskCreate (scripted (.ok ⟨"vdc1"⟩) (.error boom) none (.ok task1) none)
        disk1 []).err.map GoError.Error ≠ some boom.text ∧
    (resourceVcdDiskDelete (scripted (.ok ⟨"vdc1"⟩) (.ok task1) none (.error boom) none)
        disk1Created ["https://host/disk/abc123"]).err =
      (resourceVcdDiskDelete (scripted (.ok ⟨"vdc1"⟩) (.ok task1) (some boom) (.ok task1) none)
        disk1Created ["https://host/disk/abc123"]).err := by
  refine ⟨rfl, rfl, ?_, ?_, rfl⟩ <;> decide

/-- C8 (amended): for every error `e` returned by a remote call during Create
or Delete, the error returned to the caller is a new error value whose text is
a fixed lead followed by the Go-syntax rendering of `e`: the lead is
`error creating disk: ` when `CreateDisk` fails, `error waiting for disk to
finish: ` when the creation task fails, and `error removing disk ` when
`Delete` or the deletion task fails.  In Create the text returned for a
rejected creation always differs from the text returned for a failed task. -/
theorem remote_errors_are_wrapped {σ : Type} (sdk : SDK σ) (d : ResourceData) (w : σ) :
    (∀ vdc w1 params e w2, sdk.GetOrgAndVdcFromResource w d = (.ok vdc, w1) →
      getDiskInput d = .ok params →
      sdk.CreateDisk w1 vdc params = (.error e, w2) →
      (resourceVcdDiskCreate sdk d w).err =
        some (.errorString ("error creating disk: " ++ e.goSyntax))) ∧
    (∀ vdc w1 params task w2 e w3, sdk.GetOrgAndVdcFromResource w d = (.ok vdc, w1) →
      getDiskInput d = .ok params →
      sdk.CreateDisk w1 vdc params = (.ok task, w2) →
      sdk.WaitTaskCompletion w2 task = (some e, w3) →
      (resourceVcdDiskCreate sdk d w).err =
        some (.errorString ("error waiting for disk to finish: " ++ e.goSyntax))) ∧
    (∀ disk w1 e w2, sdk.FindDiskByHREF w d.Get_href = (.ok disk, w1) →
      sdk.Delete w1 disk = (.error e, w2) →
      (resourceVcdDiskDelete sdk d w).err =
        some (.errorString ("error removing disk " ++ e.goSyntax))) ∧
    (∀ disk w1 task w2 e w3, sdk.FindDiskByHREF w d.Get_href = (.ok disk, w1) →
      sdk.Delete w1 disk = (.ok task, w2) →
      sdk.WaitTaskCompletion w2 task = (some e, w3) →
      (resourceVcdDiskDelete sdk d w).err =
        some (.errorString ("error removing disk " ++ e.goSyntax))) ∧
    (∀ e1 e2 : SdkError,
      (Errorf_v "error creating disk: " e1).Error ≠
        (Errorf_v "error waiting for disk to finish: " e2).Error) := by
  refine ⟨?_, ?_, ?_, ?_, ?_⟩
  · intro vdc w1 params e w2 hvdc hp h
    simp [resourceVcdDiskCreate, hvdc, hp, h, Errorf_v]
  · intro vdc w1 params task w2 e w3 hvdc hp h hwait
    simp [resourceVcdDiskCreate, hvdc, hp, h, hwait, Errorf_v]
  · intro disk w1 e w2 hfind h
    simp [resourceVcdDiskDelete, hfind, h, Errorf_v]
  · intro disk w1 task w2 e w3 hfind h hwait
    simp [resourceVcdDiskDelete, hfind, h, hwait, Errorf_v]
  · intro e1 e2
    exact create_leads_differ e1.goSyntax e2.goSyntax

/-- Witness for C8 (amended): the creation of `disk1` rejected with `boom`, and
the deletion of the created `disk1` whose task fails with `boom`. -/
theorem remote_errors_are_wrapped_witness :
    (resourceVcdDiskCreate (scripted (.ok ⟨"vdc1"⟩) (.error boom) none (.ok task1) none)
        disk1 []).err =
      some (.errorString ("error creating disk: " ++ boom.goSyntax)) ∧
    (resourceVcdDiskDelete (scripted (.ok ⟨"vdc1"⟩) (.ok task1) (some boom) (.ok task1) none)
        disk1Created ["https://host/disk/abc123"]).err =
      some (.errorString ("error removing disk " ++ boom.goSyntax)) :=
  ⟨(remote_errors_are_wrapped
      (scripted (.ok ⟨"vdc1"⟩) (.error boom) none (.ok task1) none) disk1 []).1
      ⟨"vdc1"⟩ [] ⟨⟨"disk1", 2048, ""⟩⟩ boom [] rfl rfl rfl,
   (remote_errors_are_wrapped
      (scripted (.ok ⟨"vdc1"⟩) (.ok task1) (some boom) (.ok task1) none) disk1Created
      ["https://host/disk/abc123"]).2.2.2.1
      ⟨"https://host/disk/abc123"⟩ ["https://host/disk/abc123"] task1 [] boom [] rfl rfl rfl⟩

/-! ## Schema -/

/-- C10 (as stated, refuted): not every one of the attributes org, vdc, name,
description and size is declared with `ForceNew` true; name is not. -/
theorem schema_not_all_force_new :
    ¬ (∀ key ∈ ["org", "vdc", "name", "description", "size"], forcesNew key = true) ∧
    forcesNew "name" = false := by
  decide

/-- C10 (amended): in the schema returned by `resourceVcdDisk`, org and vdc are
declared with `ForceNew` true, and name, description and size are declared
with `ForceNew` false. -/
theorem schema_force_new_attributes :
    forcesNew "org" = true ∧ forcesNew "vdc" = true ∧
    forcesNew "name" = false ∧ forcesNew "description" = false ∧
    forcesNew "size" = false := by
  decide

end Vcd
